import Mathlib

/-!
Shallow embedding of `public_drive_urls.py` (the `DriveResource` and
`DriveURLResolver` classes) together with theorems checking the
specification's statements about that module.

URLs and other character data are modelled as `List Char` (Python `str`).
The HTTP session is modelled as a transport function: for the resolver it
maps the index of the GET request issued during one resolution call and the
requested URL to the response (`status_code` plus the `location` response
header, `none` when `headers.get` finds nothing); for the guessing probe it
maps the probed URL to the final status code seen by `requests` after its
automatic redirect handling.

Python exceptions are modelled as explicit result values:
`ResourceNotFoundException` / `NotPublicResourceException` become outcome
constructors, the `KeyError` raised by `ACCESS_URLS[...]` on an unknown key
becomes `none : Option (List Char)`, and the `AttributeError` raised by
`urlsplit(url).hostname.lower()` when `hostname` is `None` becomes the
`crash` outcome.
-/

/-- Characters of a string literal, used to write `List Char` data. -/
def chars (s : String) : List Char := s.data

/-- Strip `lit` from the front of `input`: `some rest` when `input`
starts with `lit`, `none` otherwise.  Used to embed the literal pieces of
the module's regular expressions (and Python substring tests). -/
def stripLit : List Char → List Char → Option (List Char)
  | [], rest => some rest
  | _ :: _, [] => none
  | c :: cs, d :: ds => if c = d then stripLit cs ds else none

/-- Python's substring test `needle in hay`. -/
def listContains (needle : List Char) : List Char → Bool
  | [] => needle.isEmpty
  | c :: rest => (stripLit needle (c :: rest)).isSome || listContains needle rest

/-! ### `urllib.parse.urlsplit(url).hostname`

`hostnameOf` embeds the part of `urlsplit` that the module uses: the
`hostname` attribute of the split result.  CPython computes it as follows:
the scheme (a leading `name:` whose name starts with a letter and contains
only letters, digits, `+`, `-`, `.`) is removed; a netloc exists only when
the remainder starts with `//` and runs to the first `/`, `?` or `#`; the
hostname is the netloc after the last `@`, up to the bracketed IPv6 close
or the port `:`, lowercased; an empty hostname is reported as `None`. -/

/-- Split a list at the first `':'`: `some (before, after)`. -/
def splitColon : List Char → Option (List Char × List Char)
  | [] => none
  | c :: r =>
    if c = ':' then some ([], r)
    else (splitColon r).map (fun p => (c :: p.1, p.2))

/-- Valid URL scheme: nonempty, starts with a letter, then letters,
digits, `+`, `-`, `.` only. -/
def isSchemeChars : List Char → Bool
  | [] => false
  | c :: cs =>
    c.isAlpha && cs.all (fun d => d.isAlpha || d.isDigit || d == '+' || d == '-' || d == '.')

/-- Remove a leading `scheme:` when present and well-formed. -/
def removeScheme (l : List Char) : List Char :=
  match splitColon l with
  | some (pre, rest) => if isSchemeChars pre then rest else l
  | none => l

/-- The netloc of a URL: present only after a leading `//` (once the scheme
is removed), running to the first `/`, `?` or `#`. -/
def netlocOf (l : List Char) : List Char :=
  match removeScheme l with
  | '/' :: '/' :: r => r.takeWhile (fun c => !(c == '/' || c == '?' || c == '#'))
  | _ => []

/-- The part of the netloc after the last `@` (drops user info). -/
def afterLastAt (l : List Char) : List Char :=
  (l.reverse.takeWhile (fun c => !(c == '@'))).reverse

/-- Host part of the host info: bracketed IPv6 content when a `[` occurs,
otherwise everything before the port `:`. -/
def hostPart (hostinfo : List Char) : List Char :=
  if hostinfo.any (fun c => c == '[') then
    ((hostinfo.dropWhile (fun c => !(c == '['))).drop 1).takeWhile (fun c => !(c == ']'))
  else
    hostinfo.takeWhile (fun c => !(c == ':'))

/-- `urlsplit(url).hostname`: `none` models Python's `None`. -/
def hostnameOf (url : List Char) : Option (List Char) :=
  let h := hostPart (afterLastAt (netlocOf url))
  if h.isEmpty then none else some (h.map Char.toLower)

/-! ### Module constants (`public_drive_urls.py` lines 12-47) -/

def LOGIN_REDIRECTION_HOST : List Char := chars "accounts.google.com"

def DEFAULT_EXPORT_FORMAT : List Char := chars "pdf"

def NATIVE_GOOGLE_DOC_TYPES : List String :=
  ["document", "presentation", "spreadsheets", "drawings"]

def REDIRECT_LIMIT : Nat := 20

def OPEN_HOSTING_TYPE : String := "open"

/-- One segment of a Python format string: a literal piece or a `\x7b\x7d`
placeholder. -/
inductive TemplateSeg where
  | lit : List Char → TemplateSeg
  | hole : TemplateSeg
deriving DecidableEq

/-- `template.format(args...)` with positional placeholders, as used on the
`ACCESS_URLS` templates (each template is given at least as many arguments
as it has placeholders). -/
def pyFormat : List TemplateSeg → List (List Char) → List Char
  | [], _ => []
  | .lit s :: rest, args => s ++ pyFormat rest args
  | .hole :: rest, a :: args => a ++ pyFormat rest args
  | .hole :: rest, [] => pyFormat rest []

/-- The `ACCESS_URLS` dict: insertion-ordered association list from hosting
type to URL template (Python 3.7+ dicts preserve insertion order, which is
the order `guess_hosting_type` iterates). -/
def ACCESS_URLS : List (String × List TemplateSeg) :=
  [("file",
    [.lit (chars "https://drive.google.com/uc?export=download&id="), .hole]),
   ("document",
    [.lit (chars "https://docs.google.com/document/d/"), .hole,
     .lit (chars "/export?format="), .hole]),
   ("presentation",
    [.lit (chars "https://docs.google.com/presentation/d/"), .hole,
     .lit (chars "/export/"), .hole]),
   ("spreadsheets",
    [.lit (chars "https://docs.google.com/spreadsheets/d/"), .hole,
     .lit (chars "/export?format="), .hole]),
   ("drawings",
    [.lit (chars "https://docs.google.com/drawings/d/"), .hole,
     .lit (chars "/export/"), .hole])]

/-- `is_accessible_location` (lines 261-265): `urlsplit(url).hostname` can
be `None`, in which case `.lower()` raises `AttributeError`; that fault is
modelled as `none`.  Otherwise the result is the negated Python substring
test `LOGIN_REDIRECTION_HOST not in hostname.lower()`. -/
def is_accessible_location (url : List Char) : Option Bool :=
  (hostnameOf url).map
    (fun h => !(listContains LOGIN_REDIRECTION_HOST (h.map Char.toLower)))

example : hostnameOf (chars "https://accounts.google.com/blah/blah/blah")
    = some (chars "accounts.google.com") := by decide

example : hostnameOf (chars "/relative/path") = none := by decide

example : is_accessible_location (chars "https://drive.google.com/uc?export=download&id=x")
    = some true := by decide

example : is_accessible_location (chars "https://accounts.google.com/signin")
    = some false := by decide

example : is_accessible_location (chars "https://ACCOUNTS.google.com:443/signin")
    = some false := by decide

/-! ### `DriveURLResolver.resolve_from_access_url` (lines 197-259)

The method is a `while redirection <= REDIRECT_LIMIT` loop; each iteration
issues one `session.get(url, allow_redirects=False)`.  The loop body runs
for `redirection = 0, 1, ..., REDIRECT_LIMIT`, so it is embedded as
structural recursion on the fuel `REDIRECT_LIMIT + 1 - redirection`
(`fuel = 0` is the loop exit, which raises `ResourceNotFoundException`).
The embedding also returns the number of GET requests issued, which doubles
as the index handed to the transport, so a transport may answer each of the
sequential requests differently (the way the repository's test mocks do).

`response.status_code is requests.codes.ok` compares with the int `200`;
CPython's small-int caching makes `is` coincide with `==` there. -/

/-- One HTTP response as the module reads it: `status_code` and
`headers.get('location')` (`none` both when the header is absent and when
the mock stores `None`). -/
structure HttpResponse where
  status : Nat
  location : Option (List Char)
deriving DecidableEq

/-- The resolver's transport: request index within the resolution call and
requested URL to response. -/
def Transport : Type := Nat → List Char → HttpResponse

/-- Terminal outcome of one resolution call.  `resolved` / `notPublic` /
`notFound` are the documented outcomes (`return url`,
`NotPublicResourceException`, `ResourceNotFoundException`); `crash` is the
`AttributeError` escaping from `is_accessible_location` when the current
URL has no hostname. -/
inductive ResolveOutcome where
  | resolved : List Char → ResolveOutcome
  | notPublic : ResolveOutcome
  | notFound : ResolveOutcome
  | crash : ResolveOutcome
deriving DecidableEq

/-- Loop body of `resolve_from_access_url`, by recursion on the remaining
iteration budget.  `reqCount` counts the GET requests issued so far (it is
also the transport index of the next request).  Returns the outcome and the
total number of GET requests issued. -/
def resolveFuel (t : Transport) : Nat → List Char → Nat → ResolveOutcome × Nat
  | 0, _, reqCount => (.notFound, reqCount)
  | fuel + 1, url, reqCount =>
    if (t reqCount url).status = 200 then
      -- 200: the current url is the real resource or a login page;
      -- `is_accessible_location` decides which (or faults on a bare path)
      match is_accessible_location url with
      | some true => (.resolved url, reqCount + 1)
      | some false => (.notPublic, reqCount + 1)
      | none => (.crash, reqCount + 1)
    else if (t reqCount url).status = 302 then
      -- 302: follow the location header; absent header is NotFound
      match (t reqCount url).location with
      | some loc => resolveFuel t fuel loc (reqCount + 1)
      | none => (.notFound, reqCount + 1)
    else
      -- any other status (4xx, 5xx, ...): NotFound
      (.notFound, reqCount + 1)

/-- `resolve_from_access_url(url)`: run the loop from `redirection = 0`,
i.e. with `REDIRECT_LIMIT + 1` iterations of budget. -/
def resolve_from_access_url (t : Transport) (url : List Char) :
    ResolveOutcome × Nat :=
  resolveFuel t (REDIRECT_LIMIT + 1) url 0

/-! ### `DriveResource` (lines 58-164) -/

/-- A `DriveResource` after `__init__` finished: its id and its
`hosting_type` attribute (`none` models Python `None`, the result of a
failed guess; during `__init__` the attribute is first set to `None`). -/
structure DriveResource where
  id : List Char
  hosting_type : Option String
deriving DecidableEq

/-- Python `self.hosting_type or hosting_type` (an empty string is falsy,
like `None`). -/
def pyOrHosting (a b : Option String) : Option String :=
  match a with
  | some s => if s = "" then b else some s
  | none => b

/-- Python `export_format or DEFAULT_EXPORT_FORMAT`. -/
def pyOrFormat : Option (List Char) → List Char
  | some f => if f = [] then DEFAULT_EXPORT_FORMAT else f
  | none => DEFAULT_EXPORT_FORMAT

/-- `ACCESS_URLS[hosting_type]` where `hosting_type` may be Python `None`:
`none` models the `KeyError` raised on a missing key (including the key
`None`). -/
def lookupAccess : Option String → Option (List TemplateSeg)
  | none => none
  | some h => ACCESS_URLS.lookup h

/-- Python `hosting_type in NATIVE_GOOGLE_DOC_TYPES` (`None` is not a
member). -/
def htInNative : Option String → Bool
  | none => false
  | some h => NATIVE_GOOGLE_DOC_TYPES.contains h

/-- `DriveResource.get_access_url(hosting_type=..., export_format=...)`
(lines 130-154).  `none` is the `KeyError` from `ACCESS_URLS[...]` when the
effective hosting type is `None` or not a key of the table.  Native Google
doc types format the template with `(id, export_format)`; the others with
`(id)` only. -/
def DriveResource.get_access_url (r : DriveResource)
    (hosting_type : Option String) (export_format : Option (List Char)) :
    Option (List Char) :=
  let ht := pyOrHosting r.hosting_type hosting_type
  let ef := pyOrFormat export_format
  if htInNative ht then
    (lookupAccess ht).map (fun tmpl => pyFormat tmpl [r.id, ef])
  else
    (lookupAccess ht).map (fun tmpl => pyFormat tmpl [r.id])

/-- `requests.Response.ok`: true unless `raise_for_status` would raise,
i.e. unless the status code is in 400-599. -/
def response_ok (status : Nat) : Bool := !(decide (400 ≤ status ∧ status < 600))

/-- The probe transport used by `guess_hosting_type`: probed URL to the
status code of the response `session.get(url, stream=True)` returns (with
`requests`' default automatic redirect following). -/
def ProbeTransport : Type := List Char → Nat

/-- Loop of `guess_hosting_type` (lines 107-128) over the entries of
`ACCESS_URLS` in insertion order.  During the guess `self.hosting_type` is
`None`, so `get_access_url(hosting_type=ht)` builds the candidate URL for
`ht` with the default export format; the first candidate whose probe
response is `ok` is returned, and the for-else returns `None` when none is.
(The `none` branch of the inner match would be a propagating `KeyError`; it
is unreachable because every iterated `ht` is a key of `ACCESS_URLS`.) -/
def guessGo (probe : ProbeTransport) (id : List Char) :
    List (String × List TemplateSeg) → Option String
  | [] => none
  | (ht, _) :: rest =>
    match DriveResource.get_access_url ⟨id, none⟩ (some ht) none with
    | some url => if response_ok (probe url) then some ht else guessGo probe id rest
    | none => none

/-- `DriveResource.guess_hosting_type()`. -/
def guess_hosting_type (probe : ProbeTransport) (id : List Char) :
    Option String :=
  guessGo probe id ACCESS_URLS

/-- `DriveResource.__init__(id, hosting_type='open')` (lines 96-105): a
hosting type other than `OPEN_HOSTING_TYPE` is stored as given; the
sentinel `'open'` triggers an immediate `guess_hosting_type` (the attribute
is `None` while the guess runs). -/
def driveResourceInit (probe : ProbeTransport) (id : List Char)
    (hosting_type : String) : DriveResource :=
  if hosting_type ≠ OPEN_HOSTING_TYPE then ⟨id, some hosting_type⟩
  else ⟨id, guess_hosting_type probe id⟩

example : (driveResourceInit (fun _ => 200) (chars "abc") "open").hosting_type
    = some "file" := by decide

example : (driveResourceInit (fun _ => 404) (chars "abc") "open").hosting_type
    = none := by decide

example : DriveResource.get_access_url ⟨chars "abc", some "file"⟩ none none
    = some (chars "https://drive.google.com/uc?export=download&id=abc") := by decide

example : DriveResource.get_access_url ⟨chars "abc", some "document"⟩ none none
    = some (chars "https://docs.google.com/document/d/abc/export?format=pdf") := by
  decide

/-! ### `SHARE_URL_REGEXES` and `DriveResource.from_share_url`
(lines 24-42 and 156-164)

`re.match` anchors at the start only.  Both patterns are embedded as
deterministic parsers; this is faithful because no backtracking of the
regex engine can turn a failure of the parsers below into a match:

* the character classes of the one-or-more groups exclude the delimiter
  that must follow them (`/` after the organizational-domain segment and
  after the id), so the greedy run is the only candidate;
* the alternations `docs|drive` and
  `file|document|presentation|spreadsheets|drawings` are prefix-free, so
  at most one branch can match;
* skipping the optional `a/...` group after it matched cannot help: the
  remaining input then starts with `a`, and no hosting-type token does;
* the trailing `.*` of the first pattern matches anything, so the pattern
  only requires the `/` before it.
-/

/-- The id character class of both patterns. -/
def isIdChar (c : Char) : Bool := c.isAlpha || c.isDigit || c == '-' || c == '_'

/-- The organizational-domain character class of the first pattern. -/
def isDomChar (c : Char) : Bool := c.isAlpha || c.isDigit || c == '-' || c == '.'

/-- Try the alternatives in order (regex alternation of literals). -/
def stripAlt (alts : List (List Char)) (input : List Char) : Option (List Char) :=
  match alts with
  | [] => none
  | a :: rest =>
    match stripLit a input with
    | some r => some r
    | none => stripAlt rest input

/-- A greedy nonempty run of characters satisfying `p`:
`some (run, rest)`. -/
def takeWhile1 (p : Char → Bool) (l : List Char) :
    Option (List Char × List Char) :=
  if (l.takeWhile p).isEmpty then none else some (l.takeWhile p, l.dropWhile p)

/-- The optional group of the first pattern, an organizational-domain
segment `a/.../`: consumed when it matches, otherwise the input is
unchanged. -/
def matchOptionalDomain (l : List Char) : List Char :=
  match stripLit (chars "a/") l with
  | some r =>
    match takeWhile1 isDomChar r with
    | some (_, rest) =>
      match stripLit (chars "/") rest with
      | some r2 => r2
      | none => l
    | none => l
  | none => l

/-- The hosting-type alternation of the first pattern; returns the matched
token (capture group 1) and the rest. -/
def stripCategory (l : List Char) : Option (String × List Char) :=
  stripCategoryGo ["file", "document", "presentation", "spreadsheets", "drawings"] l
where
  stripCategoryGo : List String → List Char → Option (String × List Char)
    | [], _ => none
    | s :: rest, input =>
      match stripLit (chars s) input with
      | some r => some (s, r)
      | none => stripCategoryGo rest input

/-- First pattern: hosting type and id of
`https://(docs|drive).google.com/(a/domain/)?{type}/d/{id}/...`.
Returns `(group 1, group 2)` on a match. -/
def matchShareRegex1 (url : List Char) : Option (String × List Char) := do
  let r1 ← stripLit (chars "https://") url
  let r2 ← stripAlt [chars "docs", chars "drive"] r1
  let r3 ← stripLit (chars ".google.com/") r2
  let r4 := matchOptionalDomain r3
  let (ht, r5) ← stripCategory r4
  let r6 ← stripLit (chars "/d/") r5
  let (idGrp, r7) ← takeWhile1 isIdChar r6
  let _ ← stripLit (chars "/") r7
  some (ht, idGrp)

/-- Second (legacy) pattern:
`https://(docs|drive).google.com/(open)?id={id}` where `(open)` is capture
group 1 and the id is capture group 2 (nothing needs to follow it). -/
def matchShareRegex2 (url : List Char) : Option (String × List Char) := do
  let r1 ← stripLit (chars "https://") url
  let r2 ← stripAlt [chars "docs", chars "drive"] r1
  let r3 ← stripLit (chars ".google.com/open?id=") r2
  let (idGrp, _) ← takeWhile1 isIdChar r3
  some (OPEN_HOSTING_TYPE, idGrp)

/-- `DriveResource.from_share_url(share_url)` (lines 156-164): try the
patterns in order; on the first match build the resource from
`(group 2, group 1)`.  (The `None not in (drive_id, hosting_type)` guard is
always satisfied: both groups are mandatory in both patterns.)  No match
falls off the end of the Python function, returning `None`. -/
def DriveResource.from_share_url (probe : ProbeTransport)
    (share_url : List Char) : Option DriveResource :=
  match matchShareRegex1 share_url with
  | some (ht, drive_id) => some (driveResourceInit probe drive_id ht)
  | none =>
    match matchShareRegex2 share_url with
    | some (ht, drive_id) => some (driveResourceInit probe drive_id ht)
    | none => none

example : matchShareRegex1
    (chars "https://drive.google.com/file/d/1BBQw1UAsh-vtmbvic7_RGmiTBL/view?usp=sharing")
    = some ("file", chars "1BBQw1UAsh-vtmbvic7_RGmiTBL") := by decide

example : matchShareRegex1
    (chars "https://docs.google.com/a/example.com/document/d/xyz/edit")
    = some ("document", chars "xyz") := by decide

example : matchShareRegex1 (chars "https://docs.google.com/open?id=blahblahblah")
    = none := by decide

example : matchShareRegex2 (chars "https://docs.google.com/open?id=blahblahblah")
    = some ("open", chars "blahblahblah") := by decide

example : DriveResource.from_share_url (fun _ => 404)
    (chars "http://drive.google.com/stuff") = none := by decide

example : DriveResource.from_share_url (fun _ => 200)
    (chars "https://docs.google.com/open?id=blahblahblah")
    = some ⟨chars "blahblahblah", some "file"⟩ := by decide

/-! ### Helper lemmas -/

/-- Unfolding of one loop iteration that saw a 200 response. -/
theorem resolveFuel_200 (t : Transport) (fuel : Nat) (url : List Char)
    (n : Nat) (h : (t n url).status = 200) :
    resolveFuel t (fuel + 1) url n =
      match is_accessible_location url with
      | some true => (.resolved url, n + 1)
      | some false => (.notPublic, n + 1)
      | none => (.crash, n + 1) := by
  simp [resolveFuel, h]

/-- Unfolding of one loop iteration that saw a 302 with a location. -/
theorem resolveFuel_302 (t : Transport) (fuel : Nat) (url : List Char)
    (n : Nat) (v : List Char) (h : (t n url).status = 302)
    (hl : (t n url).location = some v) :
    resolveFuel t (fuel + 1) url n = resolveFuel t fuel v (n + 1) := by
  simp [resolveFuel, h, hl]

/-- Unfolding of one loop iteration that saw a 302 without a location. -/
theorem resolveFuel_302_noloc (t : Transport) (fuel : Nat) (url : List Char)
    (n : Nat) (h : (t n url).status = 302)
    (hl : (t n url).location = none) :
    resolveFuel t (fuel + 1) url n = (.notFound, n + 1) := by
  simp [resolveFuel, h, hl]

/-- Unfolding of one loop iteration that saw any other status. -/
theorem resolveFuel_other (t : Transport) (fuel : Nat) (url : List Char)
    (n : Nat) (h200 : (t n url).status ≠ 200)
    (h302 : (t n url).status ≠ 302) :
    resolveFuel t (fuel + 1) url n = (.notFound, n + 1) := by
  simp [resolveFuel, h200, h302]

theorem stripLit_append (n suf : List Char) : stripLit n (n ++ suf) = some suf := by
  induction n with
  | nil => rfl
  | cons c cs ih => simp [stripLit, ih]

theorem listContains_nil (l : List Char) : listContains [] l = true := by
  cases l <;> simp [listContains, stripLit, List.isEmpty]

theorem listContains_self_append (n suf : List Char) :
    listContains n (n ++ suf) = true := by
  cases n with
  | nil => simpa using listContains_nil suf
  | cons c cs =>
    have h : stripLit (c :: cs) (c :: (cs ++ suf)) = some suf :=
      stripLit_append (c :: cs) suf
    simp [listContains, h]

theorem listContains_left (n pre rest : List Char)
    (h : listContains n rest = true) :
    listContains n (pre ++ rest) = true := by
  induction pre with
  | nil => simpa using h
  | cons c pre' ih => simp [listContains, ih]

/-- C9: `is_accessible_location` tests substring containment: any URL whose
hostname contains `accounts.google.com` anywhere — even when the hostname is
not equal to the sign-in host — is classified as not publicly accessible. -/
theorem is_accessible_location_substring (u h : List Char)
    (hh : hostnameOf u = some h)
    (_hne : h ≠ LOGIN_REDIRECTION_HOST)
    (hsub : listContains LOGIN_REDIRECTION_HOST (h.map Char.toLower) = true) :
    is_accessible_location u = some false := by
  simp [is_accessible_location, hh, hsub]

/-- Witness for C9 on the hostname `accounts.google.com.evil.example`. -/
theorem is_accessible_location_substring_witness :
    hostnameOf (chars "https://accounts.google.com.evil.example/x")
      = some (chars "accounts.google.com.evil.example") ∧
    chars "accounts.google.com.evil.example" ≠ LOGIN_REDIRECTION_HOST ∧
    listContains LOGIN_REDIRECTION_HOST
      ((chars "accounts.google.com.evil.example").map Char.toLower) = true ∧
    is_accessible_location (chars "https://accounts.google.com.evil.example/x")
      = some false :=
  ⟨by decide, by decide, by decide,
   is_accessible_location_substring
     (chars "https://accounts.google.com.evil.example/x")
     (chars "accounts.google.com.evil.example")
     (by decide) (by decide) (by decide)⟩

/-- C10: `is_accessible_location` is not total.  On a URL with no hostname
component it faults (`AttributeError` on `None.lower()`, modelled `none`);
consequently, when a 302 hop redirects to such a URL and the GET to it
returns 200, the resolution run crashes instead of reaching any of the
three documented terminal outcomes. -/
theorem no_hostname_crash (v : List Char) (hv : hostnameOf v = none) :
    is_accessible_location v = none ∧
    ∀ (t : Transport) (u0 : List Char),
      (t 0 u0).status = 302 → (t 0 u0).location = some v →
      (t 1 v).status = 200 →
      resolve_from_access_url t u0 = (.crash, 2) := by
  constructor
  · simp [is_accessible_location, hv]
  · intro t u0 h302 hloc h200
    unfold resolve_from_access_url
    rw [resolveFuel_302 t REDIRECT_LIMIT u0 0 v h302 hloc]
    rw [show REDIRECT_LIMIT = 19 + 1 from rfl]
    rw [resolveFuel_200 t 19 v 1 h200]
    simp [is_accessible_location, hv]

/-- Transport of the C10 witness: a 302 to a relative location, which then
answers 200. -/
def crashTransport : Transport := fun n _ =>
  if n = 0 then ⟨302, some (chars "/relative/path")⟩ else ⟨200, none⟩

/-- Witness for C10: a relative redirect location reached on the second hop
crashes the run. -/
theorem no_hostname_crash_witness :
    hostnameOf (chars "/relative/path") = none ∧
    resolve_from_access_url crashTransport
      (chars "https://drive.google.com/uc?export=download&id=abc")
      = (.crash, 2) :=
  ⟨by decide,
   (no_hostname_crash (chars "/relative/path") (by decide)).2 crashTransport
     (chars "https://drive.google.com/uc?export=download&id=abc")
     (by decide) (by decide) (by decide)⟩

/-- Transport that answers every GET with a plain 200. -/
def always200Transport : Transport := fun _ _ => ⟨200, none⟩

/-- Counterexample to C3 as stated: the URL
`https://accounts.google.com.evil.example/x` has a hostname different from
the sign-in host, its GET returns 200, yet resolution ends in `NotPublic`
rather than `Resolved` (the check is substring containment, compare C9). -/
theorem resolve_200_strict_hostname_counterexample :
    hostnameOf (chars "https://accounts.google.com.evil.example/x")
      = some (chars "accounts.google.com.evil.example") ∧
    chars "accounts.google.com.evil.example" ≠ chars "accounts.google.com" ∧
    (always200Transport 0 (chars "https://accounts.google.com.evil.example/x")).status
      = 200 ∧
    resolve_from_access_url always200Transport
      (chars "https://accounts.google.com.evil.example/x")
      = (.notPublic, 1) := by
  refine ⟨by decide, by decide, by decide, ?_⟩
  decide

/-- C3 (amended): when the first GET returns 200 and the URL has a
hostname, the run returns `Resolved` with exactly the input URL if the
lowercased hostname does not contain the sign-in host string, and
terminates with `NotPublic` if it does. -/
theorem resolve_200_hostname_classification (t : Transport)
    (u h : List Char) (h200 : (t 0 u).status = 200)
    (hh : hostnameOf u = some h) :
    (listContains LOGIN_REDIRECTION_HOST (h.map Char.toLower) = false →
        resolve_from_access_url t u = (.resolved u, 1)) ∧
    (listContains LOGIN_REDIRECTION_HOST (h.map Char.toLower) = true →
        resolve_from_access_url t u = (.notPublic, 1)) := by
  unfold resolve_from_access_url
  rw [resolveFuel_200 t REDIRECT_LIMIT u 0 h200]
  constructor <;> intro hc <;> simp [is_accessible_location, hh, hc]

/-- Witness for the amended C3, on both sides of the classification. -/
theorem resolve_200_hostname_classification_witness :
    resolve_from_access_url always200Transport
      (chars "https://drive.google.com/uc?export=download&id=abc")
      = (.resolved (chars "https://drive.google.com/uc?export=download&id=abc"), 1) ∧
    resolve_from_access_url always200Transport
      (chars "https://accounts.google.com/signin")
      = (.notPublic, 1) :=
  ⟨(resolve_200_hostname_classification always200Transport
      (chars "https://drive.google.com/uc?export=download&id=abc")
      (chars "drive.google.com") (by decide) (by decide)).1 (by decide),
   (resolve_200_hostname_classification always200Transport
      (chars "https://accounts.google.com/signin")
      (chars "accounts.google.com") (by decide) (by decide)).2 (by decide)⟩

/-- C7: building an access URL while the category is still unresolved (the
`'open'` sentinel or a failed guess's `None`) fails with the category-table
lookup failure — the `KeyError` on `ACCESS_URLS[...]`, modelled `none` —
deterministically and without any HTTP interaction (the function takes no
transport). -/
theorem get_access_url_unresolved_category (r : DriveResource)
    (fmt : Option (List Char))
    (h : r.hosting_type = none ∨ r.hosting_type = some OPEN_HOSTING_TYPE) :
    r.get_access_url none fmt = none := by
  obtain ⟨id, hty⟩ := r
  rcases h with h | h <;> simp only at h <;> subst h <;>
    simp [DriveResource.get_access_url, pyOrHosting, htInNative, lookupAccess,
      NATIVE_GOOGLE_DOC_TYPES, ACCESS_URLS, OPEN_HOSTING_TYPE]

/-- Witness for C7: a resource whose guess failed (hosting type `None`). -/
theorem get_access_url_unresolved_category_witness :
    DriveResource.get_access_url ⟨chars "abc", none⟩ none none = none :=
  get_access_url_unresolved_category ⟨chars "abc", none⟩ none (Or.inl rfl)

/-- C8: `get_access_url` is a pure function of the resource's category and
id and the export format (the embedding is a function, so identical inputs
give identical output by construction).  For the blob-store category `file`
the export format does not influence the output at all, while every native
google-doc category produces a URL containing both the id and the (here
nonempty) export format. -/
theorem get_access_url_template_shape (id fmt : List Char) (ht : String)
    (hnat : ht ∈ NATIVE_GOOGLE_DOC_TYPES) (hfmt : fmt ≠ []) :
    (∀ f1 f2 : Option (List Char),
        DriveResource.get_access_url ⟨id, some "file"⟩ none f1
          = DriveResource.get_access_url ⟨id, some "file"⟩ none f2) ∧
    ∃ u, DriveResource.get_access_url ⟨id, some ht⟩ none (some fmt) = some u ∧
      listContains id u = true ∧ listContains fmt u = true := by
  have hef : pyOrFormat (some fmt) = fmt := by simp [pyOrFormat, hfmt]
  have hcont : ∀ a b : List Char,
      listContains id (a ++ (id ++ (b ++ (fmt ++ [])))) = true ∧
      listContains fmt (a ++ (id ++ (b ++ (fmt ++ [])))) = true := by
    intro a b
    exact ⟨listContains_left id a _ (listContains_self_append id _),
      listContains_left fmt a _ (listContains_left fmt id _
        (listContains_left fmt b _ (listContains_self_append fmt [])))⟩
  constructor
  · intro f1 f2; rfl
  · simp only [NATIVE_GOOGLE_DOC_TYPES, List.mem_cons, List.not_mem_nil,
      or_false] at hnat
    rcases hnat with rfl | rfl | rfl | rfl
    · have h1 : DriveResource.get_access_url ⟨id, some "document"⟩ none (some fmt)
          = some (chars "https://docs.google.com/document/d/" ++
              (id ++ (chars "/export?format=" ++ (fmt ++ [])))) := by
        show some (chars "https://docs.google.com/document/d/" ++
            (id ++ (chars "/export?format=" ++ (pyOrFormat (some fmt) ++ [])))) = _
        rw [hef]
      exact ⟨_, h1, (hcont _ _).1, (hcont _ _).2⟩
    · have h1 : DriveResource.get_access_url ⟨id, some "presentation"⟩ none (some fmt)
          = some (chars "https://docs.google.com/presentation/d/" ++
              (id ++ (chars "/export/" ++ (fmt ++ [])))) := by
        show some (chars "https://docs.google.com/presentation/d/" ++
            (id ++ (chars "/export/" ++ (pyOrFormat (some fmt) ++ [])))) = _
        rw [hef]
      exact ⟨_, h1, (hcont _ _).1, (hcont _ _).2⟩
    · have h1 : DriveResource.get_access_url ⟨id, some "spreadsheets"⟩ none (some fmt)
          = some (chars "https://docs.google.com/spreadsheets/d/" ++
              (id ++ (chars "/export?format=" ++ (fmt ++ [])))) := by
        show some (chars "https://docs.google.com/spreadsheets/d/" ++
            (id ++ (chars "/export?format=" ++ (pyOrFormat (some fmt) ++ [])))) = _
        rw [hef]
      exact ⟨_, h1, (hcont _ _).1, (hcont _ _).2⟩
    · have h1 : DriveResource.get_access_url ⟨id, some "drawings"⟩ none (some fmt)
          = some (chars "https://docs.google.com/drawings/d/" ++
              (id ++ (chars "/export/" ++ (fmt ++ [])))) := by
        show some (chars "https://docs.google.com/drawings/d/" ++
            (id ++ (chars "/export/" ++ (pyOrFormat (some fmt) ++ [])))) = _
        rw [hef]
      exact ⟨_, h1, (hcont _ _).1, (hcont _ _).2⟩

/-- Witness for C8 with category `document`, id `abc` and format `pdf`. -/
theorem get_access_url_template_shape_witness :
    "document" ∈ NATIVE_GOOGLE_DOC_TYPES ∧ chars "pdf" ≠ [] ∧
    ((∀ f1 f2 : Option (List Char),
        DriveResource.get_access_url ⟨chars "abc", some "file"⟩ none f1
          = DriveResource.get_access_url ⟨chars "abc", some "file"⟩ none f2) ∧
     ∃ u, DriveResource.get_access_url ⟨chars "abc", some "document"⟩ none
            (some (chars "pdf")) = some u ∧
       listContains (chars "abc") u = true ∧
       listContains (chars "pdf") u = true) :=
  ⟨by decide, by decide,
   get_access_url_template_shape (chars "abc") (chars "pdf") "document"
     (by decide) (by decide)⟩

/-- Transport refuting C1: the first hop 302-redirects to the sign-in
host, which itself 302-redirects onward to a URL that answers 200. -/
def loginChainTransport : Transport := fun n _ =>
  if n = 0 then ⟨302, some (chars "https://accounts.google.com/signin")⟩
  else if n = 1 then ⟨302, some (chars "http://example.com/f")⟩
  else ⟨200, none⟩

/-- Counterexample to C1 as stated: the very first 302 carries a Location
whose hostname is the sign-in host, yet the run does not stop there — it
issues two further GET requests (three in total) and, because the sign-in
host answered 302 rather than 200, even ends in `Resolved`, not
`NotPublic`. -/
theorem login_redirect_not_terminal_counterexample :
    hostnameOf (chars "https://accounts.google.com/signin")
      = some (chars "accounts.google.com") ∧
    loginChainTransport 0 (chars "https://drive.google.com/uc?export=download&id=abc")
      = ⟨302, some (chars "https://accounts.google.com/signin")⟩ ∧
    resolve_from_access_url loginChainTransport
      (chars "https://drive.google.com/uc?export=download&id=abc")
      = (.resolved (chars "http://example.com/f"), 3) := by
  refine ⟨by decide, by decide, ?_⟩
  decide

/-- C1 (amended): a 302 whose Location has the sign-in host as hostname is
not classified at that hop.  The resolver issues one further GET to that
location, and when that GET returns 200 the run terminates with
`NotPublic` via the 200-branch hostname check — two requests in total for
a first-hop login redirect. -/
theorem login_redirect_notPublic_after_followup (t : Transport)
    (u0 v h : List Char)
    (h302 : (t 0 u0).status = 302) (hloc : (t 0 u0).location = some v)
    (hh : hostnameOf v = some h)
    (hsub : listContains LOGIN_REDIRECTION_HOST (h.map Char.toLower) = true)
    (h200 : (t 1 v).status = 200) :
    resolve_from_access_url t u0 = (.notPublic, 2) := by
  unfold resolve_from_access_url
  rw [resolveFuel_302 t REDIRECT_LIMIT u0 0 v h302 hloc]
  rw [show REDIRECT_LIMIT = 19 + 1 from rfl]
  rw [resolveFuel_200 t 19 v 1 h200]
  simp [is_accessible_location, hh, hsub]

/-- Transport of the repository's own login-redirect test: a 302 to the
sign-in host, then a 200. -/
def loginRedirectTransport : Transport := fun n _ =>
  if n = 0 then ⟨302, some (chars "https://accounts.google.com/blah/blah/blah")⟩
  else ⟨200, none⟩

/-- Witness for the amended C1. -/
theorem login_redirect_notPublic_after_followup_witness :
    resolve_from_access_url loginRedirectTransport
      (chars "https://drive.google.com/uc?export=download&id=abc")
      = (.notPublic, 2) :=
  login_redirect_notPublic_after_followup loginRedirectTransport
    (chars "https://drive.google.com/uc?export=download&id=abc")
    (chars "https://accounts.google.com/blah/blah/blah")
    (chars "accounts.google.com")
    (by decide) (by decide) (by decide) (by decide) (by decide)

/-- Under a transport that always answers 302-with-location, every loop
iteration consumes one unit of fuel and issues one request. -/
theorem resolveFuel_all302 (t : Transport)
    (hall : ∀ n u, (t n u).status = 302 ∧ ∃ loc, (t n u).location = some loc) :
    ∀ (fuel : Nat) (url : List Char) (n : Nat),
      resolveFuel t fuel url n = (.notFound, n + fuel) := by
  intro fuel
  induction fuel with
  | zero => intro url n; simp [resolveFuel]
  | succ fuel ih =>
    intro url n
    obtain ⟨h302, loc, hloc⟩ := hall n url
    rw [resolveFuel_302 t fuel url n loc h302 hloc, ih loc (n + 1)]
    refine congrArg _ ?_
    omega

/-- C2 (amended): a transport that answers every GET with a 302 carrying a
non-sign-in-host Location makes every resolution run terminate with
`NotFound` after issuing exactly `REDIRECT_LIMIT + 1 = 21` requests (the
loop admits hop counters 0 through 20 inclusive) — never looping
forever. -/
theorem always_redirect_notFound (t : Transport)
    (hall : ∀ n u, (t n u).status = 302 ∧
      ∃ loc, (t n u).location = some loc ∧
        ((hostnameOf loc).all
          (fun h => !(listContains LOGIN_REDIRECTION_HOST (h.map Char.toLower)))
          = true)) :
    ∀ url, resolve_from_access_url t url = (.notFound, REDIRECT_LIMIT + 1) := by
  have hall' : ∀ n u, (t n u).status = 302 ∧
      ∃ loc, (t n u).location = some loc := by
    intro n u
    obtain ⟨h302, loc, hloc, _⟩ := hall n u
    exact ⟨h302, loc, hloc⟩
  intro url
  unfold resolve_from_access_url
  rw [resolveFuel_all302 t hall' (REDIRECT_LIMIT + 1) url 0]
  norm_num

/-- Transport of the repository's redirect-loop test: always 302 to the
same non-sign-in location. -/
def loopTransport : Transport := fun _ _ =>
  ⟨302, some (chars "http://example.com/loop")⟩

/-- Counterexample to C2 as stated: under the always-302 transport the run
terminates with `NotFound` after exactly 21 requests, not 20. -/
theorem redirect_limit_request_count_counterexample :
    resolve_from_access_url loopTransport
      (chars "https://drive.google.com/uc?export=download&id=abc")
      = (.notFound, 21) ∧ (21 : Nat) ≠ 20 := by
  constructor
  · decide
  · decide

/-- Witness for the amended C2. -/
theorem always_redirect_notFound_witness :
    resolve_from_access_url loopTransport
      (chars "https://docs.google.com/document/d/abc/export?format=pdf")
      = (.notFound, REDIRECT_LIMIT + 1) :=
  always_redirect_notFound loopTransport
    (fun _ _ => ⟨rfl, chars "http://example.com/loop", rfl, by decide⟩)
    (chars "https://docs.google.com/document/d/abc/export?format=pdf")

/-- The probe predicate `guess_hosting_type` effectively applies to each
hosting type: the candidate access URL's probe response is `ok`
(status outside 400-599). -/
def probeOk (probe : ProbeTransport) (id : List Char) (ht : String) : Bool :=
  match DriveResource.get_access_url ⟨id, none⟩ (some ht) none with
  | some url => response_ok (probe url)
  | none => false

theorem guessGo_eq_find (probe : ProbeTransport) (id : List Char) :
    ∀ entries : List (String × List TemplateSeg),
      (∀ e ∈ entries,
        (DriveResource.get_access_url ⟨id, none⟩ (some e.1) none).isSome = true) →
      guessGo probe id entries = (entries.map Prod.fst).find? (probeOk probe id) := by
  intro entries
  induction entries with
  | nil => intro _; rfl
  | cons e rest ih =>
    intro hsome
    obtain ⟨ht, tmpl⟩ := e
    have h1 := hsome ⟨ht, tmpl⟩ (List.mem_cons_self _ _)
    obtain ⟨url, hurl⟩ := Option.isSome_iff_exists.mp h1
    have hp : probeOk probe id ht = response_ok (probe url) := by
      unfold probeOk
      rw [hurl]
    have hrest := ih (fun e he => hsome e (List.mem_cons_of_mem _ he))
    unfold guessGo
    rw [hurl]
    cases hro : response_ok (probe url) <;>
      simp [List.find?, hp, hro, hrest]

/-- C6 (amended): `guess_hosting_type` returns the first hosting type of
`ACCESS_URLS` (iterated in insertion order: file, document, presentation,
spreadsheets, drawings) whose candidate-URL probe response is `ok` in the
`requests` sense — status outside 400-599, *not* restricted to 2xx — and
`none` when no probe is `ok`. -/
theorem guess_hosting_type_first_ok (probe : ProbeTransport) (id : List Char) :
    guess_hosting_type probe id
      = (ACCESS_URLS.map Prod.fst).find? (probeOk probe id) := by
  apply guessGo_eq_find
  intro e he
  simp only [ACCESS_URLS, List.mem_cons, List.not_mem_nil, or_false] at he
  rcases he with rfl | rfl | rfl | rfl | rfl <;> rfl

/-- Counterexample to C6 as stated: when every probe answers 304 (Not
Modified — not a 2xx success status), the claim predicts that no category
is adopted, but the code adopts the first category `file`, because
`response.ok` accepts any status below 400. -/
theorem guess_not_2xx_counterexample :
    guess_hosting_type (fun _ => 304) (chars "X") = some "file" ∧
    ¬(200 ≤ 304 ∧ 304 < 300) := by
  constructor
  · decide
  · decide

/-- Counterexample to C5 as stated: parsing the legacy share URL
`https://drive.google.com/open?id=abc` (all probes answering 200) returns a
resource whose category is the concrete `file`, not the not-yet-guessed
sentinel `'open'` and not absent — parsing alone already triggered the
category guess inside `__init__`. -/
theorem legacy_parse_guesses_category_counterexample :
    DriveResource.from_share_url (fun _ => 200)
      (chars "https://drive.google.com/open?id=abc")
      = some ⟨chars "abc", some "file"⟩ ∧
    (some "file" : Option String) ≠ some OPEN_HOSTING_TYPE ∧
    (some "file" : Option String) ≠ none := by
  refine ⟨by decide, by decide, by decide⟩

/-- C5 (amended): for every share URL of the legacy `?id=` shape, parsing
succeeds and extracts exactly the id substring present in the URL, but the
returned resource's category is not left at the `'open'` sentinel: the
constructor immediately guesses it by live probing, storing
`guess_hosting_type`'s result (the first probe-ok category, or `None` when
no probe succeeds). -/
theorem from_share_url_legacy (probe : ProbeTransport) (dom id : List Char)
    (hdom : dom = chars "docs" ∨ dom = chars "drive")
    (hne : id ≠ [])
    (hid : ∀ c ∈ id, isIdChar c = true) :
    DriveResource.from_share_url probe
      (chars "https://" ++ dom ++ (chars ".google.com/open?id=" ++ id))
      = some ⟨id, guess_hosting_type probe id⟩ := by
  have htw : id.takeWhile isIdChar = id := List.takeWhile_eq_self_iff.mpr hid
  have hdw : id.dropWhile isIdChar = [] := List.dropWhile_eq_nil_iff.mpr hid
  have hisEmpty : id.isEmpty = false := by
    cases id with
    | nil => exact absurd rfl hne
    | cons _ _ => rfl
  have htw1 : takeWhile1 isIdChar id = some (id, []) := by
    unfold takeWhile1
    rw [htw, hdw, hisEmpty]
    simp
  rcases hdom with rfl | rfl
  · show DriveResource.from_share_url probe
        (chars "https://docs.google.com/open?id=" ++ id) = _
    have hr1 : matchShareRegex1 (chars "https://docs.google.com/open?id=" ++ id)
        = none := rfl
    have hr2 : matchShareRegex2 (chars "https://docs.google.com/open?id=" ++ id)
        = some (OPEN_HOSTING_TYPE, id) := by
      rw [show matchShareRegex2 (chars "https://docs.google.com/open?id=" ++ id)
          = Option.bind (takeWhile1 isIdChar id)
              (fun x => some (OPEN_HOSTING_TYPE, x.1)) from rfl, htw1]
      rfl
    unfold DriveResource.from_share_url
    rw [hr1, hr2]
    rfl
  · show DriveResource.from_share_url probe
        (chars "https://drive.google.com/open?id=" ++ id) = _
    have hr1 : matchShareRegex1 (chars "https://drive.google.com/open?id=" ++ id)
        = none := rfl
    have hr2 : matchShareRegex2 (chars "https://drive.google.com/open?id=" ++ id)
        = some (OPEN_HOSTING_TYPE, id) := by
      rw [show matchShareRegex2 (chars "https://drive.google.com/open?id=" ++ id)
          = Option.bind (takeWhile1 isIdChar id)
              (fun x => some (OPEN_HOSTING_TYPE, x.1)) from rfl, htw1]
      rfl
    unfold DriveResource.from_share_url
    rw [hr1, hr2]
    rfl

/-! ### The redirect chain of one resolution run (for C4)

`hopURL t u0 n` is the URL the n-th GET request of the run would address:
hop 0 is the access URL itself, and hop `n + 1` exists exactly when the
response at hop `n` was a 302 carrying a location header. -/

def hopURL (t : Transport) (u0 : List Char) : Nat → Option (List Char)
  | 0 => some u0
  | n + 1 =>
    match hopURL t u0 n with
    | some u => if (t n u).status = 302 then (t n u).location else none
    | none => none

/-- Hop `n` answers with a status that is neither 200 nor 302. -/
abbrev BadStatusAt (t : Transport) (u0 : List Char) (n : Nat) : Prop :=
  ∃ u, hopURL t u0 n = some u ∧ (t n u).status ≠ 200 ∧ (t n u).status ≠ 302

/-- Hop `n` answers 302 without a location header. -/
abbrev MissingLocationAt (t : Transport) (u0 : List Char) (n : Nat) : Prop :=
  ∃ u, hopURL t u0 n = some u ∧ (t n u).status = 302 ∧
    (t n u).location = none

theorem hopURL_succ_none (t : Transport) (u0 : List Char) (n : Nat)
    (h : hopURL t u0 n = none) : hopURL t u0 (n + 1) = none := by
  simp [hopURL, h]

theorem hopURL_none_of_ge (t : Transport) (u0 : List Char) (n : Nat)
    (h : hopURL t u0 n = none) : ∀ m, n ≤ m → hopURL t u0 m = none := by
  intro m hm
  induction m, hm using Nat.le_induction with
  | base => exact h
  | succ m _ ih => exact hopURL_succ_none t u0 m ih

theorem hopURL_stop (t : Transport) (u0 : List Char) (n : Nat) (u : List Char)
    (hu : hopURL t u0 n = some u)
    (hstop : (if (t n u).status = 302 then (t n u).location else none) = none) :
    ∀ m, n + 1 ≤ m → hopURL t u0 m = none := by
  apply hopURL_none_of_ge
  simp [hopURL, hu, hstop]

/-- The loop, entered at hop `n` with matching fuel, ends in `NotFound`
exactly when a bad status or a missing location header occurs at some later
hop within the limit, or the chain of 302s outlives the limit. -/
theorem resolveFuel_notFound_iff (t : Transport) (u0 : List Char) :
    ∀ (fuel n : Nat) (url : List Char),
      n + fuel = REDIRECT_LIMIT + 1 →
      hopURL t u0 n = some url →
      ((resolveFuel t fuel url n).1 = .notFound ↔
        (∃ m, n ≤ m ∧ m ≤ REDIRECT_LIMIT ∧ BadStatusAt t u0 m) ∨
        (∃ m, n ≤ m ∧ m ≤ REDIRECT_LIMIT ∧ MissingLocationAt t u0 m) ∨
        (hopURL t u0 (REDIRECT_LIMIT + 1)).isSome = true) := by
  intro fuel
  induction fuel with
  | zero =>
    intro n url hsum hhop
    have hn : n = REDIRECT_LIMIT + 1 := by omega
    subst hn
    constructor
    · intro _
      exact Or.inr (Or.inr (by simp [hhop]))
    · intro _
      rfl
  | succ fuel ih =>
    intro n url hsum hhop
    have hn20 : n ≤ REDIRECT_LIMIT := by omega
    by_cases h200 : (t n url).status = 200
    · -- a 200 response: the run ends (not in NotFound) and the chain stops
      rw [resolveFuel_200 t fuel url n h200]
      have hstop : ∀ m, n + 1 ≤ m → hopURL t u0 m = none := by
        apply hopURL_stop t u0 n url hhop
        rw [h200]
        simp
      constructor
      · intro hout
        exfalso
        rcases hacc : is_accessible_location url with _ | b
        · rw [hacc] at hout
          simp at hout
        · rcases b <;> rw [hacc] at hout <;> simp at hout
      · rintro (⟨m, hnm, _, u, hu, hs200, _⟩ | ⟨m, hnm, _, u, hu, hs302, _⟩ |
          hsome)
        · rcases Nat.eq_or_lt_of_le hnm with rfl | hlt
          · rw [hhop] at hu
            cases hu
            exact absurd h200 hs200
          · rw [hstop m hlt] at hu
            cases hu
        · rcases Nat.eq_or_lt_of_le hnm with rfl | hlt
          · rw [hhop] at hu
            cases hu
            rw [h200] at hs302
            cases hs302
          · rw [hstop m hlt] at hu
            cases hu
        · rw [hstop (REDIRECT_LIMIT + 1) (by omega)] at hsome
          cases hsome
    · by_cases h302 : (t n url).status = 302
      · rcases hloc : (t n url).location with _ | v
        · -- 302 without a location header
          rw [resolveFuel_302_noloc t fuel url n h302 hloc]
          constructor
          · intro _
            exact Or.inr (Or.inl ⟨n, le_refl n, hn20, url, hhop, h302, hloc⟩)
          · intro _
            rfl
        · -- 302 with a location: one more hop
          rw [resolveFuel_302 t fuel url n v h302 hloc]
          have hhop' : hopURL t u0 (n + 1) = some v := by
            simp [hopURL, hhop, h302, hloc]
          rw [ih (n + 1) v (by omega) hhop']
          constructor
          · rintro (⟨m, hm, hm20, hb⟩ | ⟨m, hm, hm20, hb⟩ | hs)
            · exact Or.inl ⟨m, by omega, hm20, hb⟩
            · exact Or.inr (Or.inl ⟨m, by omega, hm20, hb⟩)
            · exact Or.inr (Or.inr hs)
          · rintro (⟨m, hm, hm20, u, hu, hs1, hs2⟩ |
              ⟨m, hm, hm20, u, hu, hs1, hl⟩ | hs)
            · rcases Nat.eq_or_lt_of_le hm with rfl | hlt
              · rw [hhop] at hu
                cases hu
                exact absurd h302 hs2
              · exact Or.inl ⟨m, hlt, hm20, u, hu, hs1, hs2⟩
            · rcases Nat.eq_or_lt_of_le hm with rfl | hlt
              · rw [hhop] at hu
                cases hu
                rw [hloc] at hl
                cases hl
              · exact Or.inr (Or.inl ⟨m, hlt, hm20, u, hu, hs1, hl⟩)
            · exact Or.inr (Or.inr hs)
      · -- any other status
        rw [resolveFuel_other t fuel url n h200 h302]
        constructor
        · intro _
          exact Or.inl ⟨n, le_refl n, hn20, url, hhop, h200, h302⟩
        · intro _
          rfl

/-- C4: a resolution run terminates with `NotFound` if and only if one of
exactly three conditions occurs along its redirect chain — a response
status other than 200 and 302 (failing at that hop, which issues no further
request), a 302 response without a Location header, or a chain of 302s
exhausting the hop limit. -/
theorem resolve_notFound_characterization (t : Transport) (u0 : List Char) :
    (resolve_from_access_url t u0).1 = .notFound ↔
      (∃ n, n ≤ REDIRECT_LIMIT ∧ BadStatusAt t u0 n) ∨
      (∃ n, n ≤ REDIRECT_LIMIT ∧ MissingLocationAt t u0 n) ∨
      (hopURL t u0 (REDIRECT_LIMIT + 1)).isSome = true := by
  unfold resolve_from_access_url
  rw [resolveFuel_notFound_iff t u0 (REDIRECT_LIMIT + 1) 0 u0 (by omega) rfl]
  simp [Nat.zero_le]

/-- Witness for the amended C5 on the repository's own test URL. -/
theorem from_share_url_legacy_witness :
    DriveResource.from_share_url (fun _ => 200)
      (chars "https://" ++ chars "docs" ++
        (chars ".google.com/open?id=" ++ chars "blahblahblah"))
      = some ⟨chars "blahblahblah",
          guess_hosting_type (fun _ => 200) (chars "blahblahblah")⟩ :=
  from_share_url_legacy (fun _ => 200) (chars "docs") (chars "blahblahblah")
    (Or.inl rfl) (by decide) (by decide)
